import Mathlib

/-
Verification of the flow dataflow engine core (pipe, pin connection
protocol, node state machine and execution loops) against its
natural-language specification. The definitions below are a shallow
embedding of src/node.h; the parts of the repository that node.h uses
but whose sources are not present (pipe.h, packet.h) are modelled from
the specification and marked as such in their doc comments.
-/

namespace flow

/-- The state of a node (src/node.h lines 32-40). -/
inductive state
  | start_requested
  | started
  | incoming
  | pause_requested
  | paused
  | stop_requested
deriving DecidableEq, BEq

open state

/-- Modelled from the spec: packet.h is not under src/. A packet is one unit
of streamed data with a payload, a weight used for capacity accounting
(default one packet = one unit) and an optional consumption deadline
(spec section 3). The payload is abstracted to a number. -/
structure packet where
  payload : Nat
  size : Nat
  consumption_time : Option Nat
deriving DecidableEq

/-- Modelled from the spec: pipe.h is not under src/. A pipe is a bounded
FIFO queue of packets with a name, capacity caps (0 means unlimited) and
references to its two pin endpoints, given as indices into the world's pin
list (spec section 3). The endpoint accessor polarity is fixed by
src/node.h itself: outpin::push stores the result of the pipe's output()
accessor in an inpin pointer (node.h line 228), so the pipe's input end is
the producing outpin and its output end is the consuming inpin. -/
structure pipe where
  name : String
  packets : List packet
  max_length : Nat
  max_weight : Nat
  input_id : Option Nat
  output_id : Option Nat
deriving DecidableEq

/-- Modelled from the spec: the pipe's length is the number of queued
packets (spec section 4.1). -/
def pipe.length (p : pipe) : Nat := p.packets.length

/-- Modelled from the spec: the pipe's weight is the cumulative weight of
the queued packets (spec section 3). -/
def pipe.weight (p : pipe) : Nat := (p.packets.map packet.size).sum

/-- Modelled from the spec: pipe::push appends if both capacity constraints
hold after insertion; otherwise it rejects and leaves the packet with the
caller (spec sections 4.1 and 8). The result carries the acceptance flag,
the updated pipe, and the rejected packet handed back to the caller, if
any. -/
def pipe.push (p : pipe) (pkt : packet) : Bool × pipe × Option packet :=
  if (p.max_length ≠ 0 ∧ p.max_length < p.length + 1) ∨
     (p.max_weight ≠ 0 ∧ p.max_weight < p.weight + pkt.size) then
    (false, p, some pkt)
  else
    (true, { p with packets := p.packets ++ [pkt] }, none)

/-- Modelled from the spec: pipe::pop removes and returns the front packet
if any, else signals empty (spec section 4.1). -/
def pipe.pop (p : pipe) : Option packet × pipe :=
  match p.packets with
  | [] => (none, p)
  | x :: xs => (some x, { p with packets := xs })

/-- Modelled from the spec: administrative rename (spec section 4.1),
invoked by pin::connect (src/node.h line 98). -/
def pipe.rename (p : pipe) (n : String) : pipe := { p with name := n }

/-- Modelled from the spec: sets the maximum-length cap (spec section 4.1);
invoked by pin::connect (src/node.h lines 100-101). -/
def pipe.cap_length (p : pipe) (n : Nat) : pipe := { p with max_length := n }

/-- Modelled from the spec: sets the maximum-weight cap (spec section 4.1).
Note that src/node.h never calls this function. -/
def pipe.cap_weight (p : pipe) (n : Nat) : pipe := { p with max_weight := n }

/-- Direction of a pin (src/node.h lines 53-57). -/
inductive pdir
  | din
  | dout
deriving DecidableEq

/-- A pin: a name, a direction and an optional shared-ownership reference
to a pipe, given as an index into the world's pipe heap (src/node.h lines
46-60). -/
structure pinState where
  name : String
  direction : pdir
  pipe_ref : Option Nat
deriving DecidableEq

/-- The connection state of a collection of pins and the heap of pipes they
share. Pipes are never removed from the heap: a pipe survives as long as
any endpoint may still reference it (the retained-pipe rule of spec
section 4.2). -/
structure world where
  pins : List pinState
  pipes : List pipe
deriving DecidableEq

def defaultPin : pinState := ⟨"", pdir.din, none⟩

def defaultPipe : pipe := ⟨"", [], 0, 0, none, none⟩

/-- Observable events of the pin operations: the disconnect performed
during pin::connect, and the lock-push-unlock-notify sequence inside
outpin::push. -/
inductive ev
  | evDisconnect (i : Nat)
  | evLockAcquire
  | evPipePush (ok : Bool)
  | evLockRelease
  | evIncoming (i : Nat)
deriving DecidableEq

/-- Recognizes an incoming-notification event. -/
def isIncomingEv : ev → Bool
  | ev.evIncoming _ => true
  | _ => false

/-- pin::disconnect (src/node.h lines 112-115): releases this pin's
reference to its pipe; the pipe object and the peer pin's reference are
untouched. -/
def pin.disconnect (w : world) (i : Nat) : world :=
  { w with pins := w.pins.set i { w.pins.getD i defaultPin with pipe_ref := none } }

/-- pin::connect (src/node.h lines 77-109), issued on input pin me with
output pin other as argument. Step 1 (lines 83-90): if other already has a
pipe, call disconnect on that pipe's input-end pin. Step 2 (lines 92-102):
if me already owns a pipe, reuse it — attach other to it, rename it to
"<other.name>_to_<me.name>", and apply the non-zero caps exactly as
written in node.h lines 100-101, where both calls are to cap_length.
Step 3 (lines 103-108): otherwise construct a new pipe referenced by both
pins. The direction asserts of lines 79-81 are preconditions and are not
modelled. The result carries the new world and the disconnect events
emitted. -/
def pin.connect (w : world) (me other : Nat) (max_length max_weight : Nat) :
    world × List ev :=
  let step1 : world × List ev :=
    match (w.pins.getD other defaultPin).pipe_ref with
    | none => (w, [])
    | some pid =>
      match (w.pipes.getD pid defaultPipe).input_id with
      | none => (w, [])
      | some q => (pin.disconnect w q, [ev.evDisconnect q])
  let w1 := step1.1
  let pname := (w1.pins.getD other defaultPin).name ++ "_to_" ++
    (w1.pins.getD me defaultPin).name
  match (w1.pins.getD me defaultPin).pipe_ref with
  | some pid2 =>
    let otherPin2 := { w1.pins.getD other defaultPin with pipe_ref := some pid2 }
    let w2 : world := { w1 with pins := w1.pins.set other otherPin2 }
    let p0 := w2.pipes.getD pid2 defaultPipe
    let p1 := p0.rename pname
    let p2 := if max_length ≠ 0 then p1.cap_length max_length else p1
    let p3 := if max_weight ≠ 0 then p2.cap_length max_weight else p2
    ({ w2 with pipes := w2.pipes.set pid2 p3 }, step1.2)
  | none =>
    let nid := w1.pipes.length
    let np : pipe := ⟨pname, [], max_length, max_weight, some other, some me⟩
    let otherPin3 := { w1.pins.getD other defaultPin with pipe_ref := some nid }
    let pinsA := w1.pins.set other otherPin3
    let mePin3 := { pinsA.getD me defaultPin with pipe_ref := some nid }
    let pinsB := pinsA.set me mePin3
    (⟨pinsB, w1.pipes ++ [np]⟩, step1.2)

/-- inpin::peek (src/node.h lines 155-160): false when the pin is
unconnected, otherwise whether the pipe is non-empty. -/
def inpin.peek (w : world) (i : Nat) : Bool :=
  match (w.pins.getD i defaultPin).pipe_ref with
  | none => false
  | some pid => (w.pipes.getD pid defaultPipe).length != 0

/-- inpin::pop (src/node.h lines 165-171): nothing when the pin is
unconnected or the pipe is empty, otherwise the front packet, removed from
the pipe. -/
def inpin.pop (w : world) (i : Nat) : Option packet × world :=
  match (w.pins.getD i defaultPin).pipe_ref with
  | none => (none, w)
  | some pid =>
    let p := w.pipes.getD pid defaultPipe
    if p.length ≠ 0 then
      ((p.pop).1, { w with pipes := w.pipes.set pid (p.pop).2 })
    else (none, w)

/-- inpin::incoming (src/node.h lines 177-184): the effect on the owning
node's state signal — started becomes incoming, any other state is left
unchanged. -/
def inpin.incoming (s : state) : state :=
  if s = started then state.incoming else s

/-- Final ownership of the packet moved into outpin::push, which takes its
argument by value (src/node.h line 219): destroyed on the unconnected
path, delivered into the pipe on acceptance, handed back at the pipe level
on capacity rejection. -/
inductive pktFate
  | delivered
  | destroyed
  | rejected
deriving DecidableEq

/-- The full outcome of one outpin::push call: the returned boolean, the
updated world, the inpin captured for notification (if any), the packet's
fate and the event trace. -/
structure pushOut where
  ret : Bool
  w : world
  notified : Option Nat
  fate : pktFate
  events : List ev

/-- outpin::push (src/node.h lines 219-238): returns false immediately when
the pin has no pipe; otherwise, under the pipe's lock, attempts pipe::push,
capturing the pipe's output-end inpin on success; after releasing the lock,
notifies the captured inpin if there is one; the returned boolean is
inpin_p == nullptr, exactly as written on line 237. -/
def outpin.push (w : world) (i : Nat) (pkt : packet) : pushOut :=
  match (w.pins.getD i defaultPin).pipe_ref with
  | none => ⟨false, w, none, pktFate.destroyed, []⟩
  | some pid =>
    let p := w.pipes.getD pid defaultPipe
    let r := p.push pkt
    let inpin_p : Option Nat := if r.1 then r.2.1.output_id else none
    ⟨inpin_p.isNone,
     { w with pipes := w.pipes.set pid r.2.1 },
     inpin_p,
     if r.1 then pktFate.delivered else pktFate.rejected,
     [ev.evLockAcquire, ev.evPipePush r.1, ev.evLockRelease] ++
       (match inpin_p with | some j => [ev.evIncoming j] | none => [])⟩

/-- node::start (src/node.h lines 263-266): overwrites the state signal. -/
def node.start (_s : state) : state := start_requested

/-- node::pause (src/node.h lines 271-274): overwrites the state signal. -/
def node.pause (_s : state) : state := pause_requested

/-- node::stop (src/node.h lines 280-283): overwrites the state signal. -/
def node.stop (_s : state) : state := stop_requested

/-- Wake predicate of the producer's paused wait (src/node.h line 335). -/
def producerWake (state_r : state) : Bool :=
  state_r == start_requested || state_r == stop_requested

/-- Wake predicate of the consumer's paused wait (src/node.h line 410). -/
def consumerPausedWake (state_r : state) : Bool :=
  state_r == start_requested || state_r == stop_requested

/-- Wake predicate of the consumer's idle wait while started
(src/node.h line 414). -/
def consumerIdleWake (state_r : state) : Bool :=
  state_r != started

/-- One iteration of the producer loop body after the state has been read
(src/node.h lines 332-355). The argument obs is the monitor value at the
read point, whether it came from the paused wait of line 335 or from the
plain read of line 339; the subsequent behaviour of the body is the same
for both reads. The result is the local state s at the end of the
iteration, the monitor writes performed while settling, and the number of
produce() calls made (line 354 runs produce exactly when the possibly
just-settled state is started). -/
def producerIterate (obs : state) : state × List state × Nat :=
  let sw : state × List state :=
    if obs = pause_requested then (paused, [paused])
    else if obs = start_requested then (started, [started])
    else (obs, [])
  (sw.1, sw.2, if sw.1 = started then 1 else 0)

/-- Outcome of a run of the producer loop: the monitor writes, the total
number of produce() calls, whether the while condition (s = stop_requested)
made the loop exit, and the observations never consumed. -/
structure ProdRun where
  writes : List state
  produced : Nat
  exited : Bool
  leftover : List state
deriving DecidableEq

/-- The producer while loop (src/node.h lines 330-356), driven by the list
of monitor values observed at the successive read points. The run ends
either when the loop condition sees stop_requested (exited = true) or when
the supplied observations run out (exited = false, modelling a loop that is
still running). -/
def producerLoop (s : state) (obss : List state) : ProdRun :=
  if s = stop_requested then ⟨[], 0, true, obss⟩
  else
    match obss with
    | [] => ⟨[], 0, false, []⟩
    | obs :: rest =>
      let t := producerIterate obs
      let r := producerLoop t.1 rest
      ⟨t.2.1 ++ r.writes, t.2.2 + r.produced, r.exited, r.leftover⟩

/-- producer::operator() (src/node.h lines 324-357): on entry the state is
settled directly to started (line 328), then the while loop runs. -/
def producerRun (obss : List state) : ProdRun :=
  let r := producerLoop started obss
  ⟨started :: r.writes, r.produced, r.exited, r.leftover⟩

/-- The consumer's pin scan (src/node.h lines 437-443): for i from 0 while
i is not the pin count, in increasing index order, record a ready(i) call
for every pin whose peek() is true at scan time. The structural fuel
argument bounds the iteration count; it is always sufficient when the scan
starts with fuel = n at i = 0. -/
def scanPinsF (peek : Nat → Bool) (n : Nat) : Nat → Nat → List Nat
  | _, 0 => []
  | i, fuel + 1 =>
    if i < n then (if peek i then [i] else []) ++ scanPinsF peek n (i + 1) fuel
    else []

/-- The full pin scan of the consumer loop over n input pins. -/
def consumerScan (peek : Nat → Bool) (n : Nat) : List Nat := scanPinsF peek n 0 n

/-- One iteration of the consumer loop body after the state has been read
(src/node.h lines 407-444). obs is the monitor value at the read point
(paused wait, idle wait, or plain read — the body treats all three reads
alike); peek i tells whether input pin i is non-empty at scan time. The
settle block writes paused for pause_requested, started for
start_requested, and started for incoming — in the incoming case the local
s keeps the observed value (line 431 does not assign s). The scan of lines
435-444 runs exactly when the state just observed was incoming. -/
def consumerIterate (peek : Nat → Bool) (n : Nat) (obs : state) :
    state × List state × List Nat :=
  let sw : state × List state :=
    if obs = pause_requested then (paused, [paused])
    else if obs = start_requested then (started, [started])
    else if obs = incoming then (incoming, [started])
    else (obs, [])
  (sw.1, sw.2, if sw.1 = incoming then consumerScan peek n else [])

/-- Outcome of a run of the consumer loop: monitor writes, ready(i) calls
in order, whether the loop exited through its condition, and the
observations never consumed. -/
structure ConsRun where
  writes : List state
  ready_calls : List Nat
  exited : Bool
  leftover : List (state × (Nat → Bool))

/-- The consumer while loop (src/node.h lines 405-445). Each observation
carries the monitor value at the read point together with the peek status
of the n input pins at that iteration, since pipes are filled and drained
by other threads between iterations. -/
def consumerLoop (n : Nat) (s : state) (obss : List (state × (Nat → Bool))) :
    ConsRun :=
  if s = stop_requested then ⟨[], [], true, obss⟩
  else
    match obss with
    | [] => ⟨[], [], false, []⟩
    | ob :: rest =>
      let t := consumerIterate ob.2 n ob.1
      let r := consumerLoop n t.1 rest
      ⟨t.2.1 ++ r.writes, t.2.2 ++ r.ready_calls, r.exited, r.leftover⟩

/-- consumer::operator() (src/node.h lines 399-446): on entry the state is
settled directly to started (line 403), then the while loop runs. -/
def consumerRun (n : Nat) (obss : List (state × (Nat → Bool))) : ConsRun :=
  let r := consumerLoop n started obss
  ⟨started :: r.writes, r.ready_calls, r.exited, r.leftover⟩

/-- A packet used in the concrete scenarios. -/
def pkt0 : packet := ⟨0, 1, none⟩

/-- Outpin A (index 0) connected through an empty, uncapped pipe to inpin X
(index 1). -/
def wConn : world :=
  ⟨[⟨"A", pdir.dout, some 0⟩, ⟨"X", pdir.din, some 0⟩],
   [⟨"A_to_X", [], 0, 0, some 0, some 1⟩]⟩

/-- Outpin A (index 0) connected to inpin X (index 1) through a pipe of
max_length 1 that already holds one packet, so it is at capacity. -/
def wFull : world :=
  ⟨[⟨"A", pdir.dout, some 0⟩, ⟨"X", pdir.din, some 0⟩],
   [⟨"A_to_X", [pkt0], 1, 0, some 0, some 1⟩]⟩

/-- A connected pair (A at 0, X at 1, sharing pipe 0) together with an
unconnected outpin U at index 2. -/
def wBoth : world :=
  ⟨[⟨"A", pdir.dout, some 0⟩, ⟨"X", pdir.din, some 0⟩, ⟨"U", pdir.dout, none⟩],
   [⟨"A_to_X", [], 0, 0, some 0, some 1⟩]⟩

/-- Inpin X (index 1) already owning pipe 0 (connected to outpin A at
index 2), and a fresh outpin B at index 0 to be connected to X, reusing
the pipe. -/
def wReuse : world :=
  ⟨[⟨"B", pdir.dout, none⟩, ⟨"X", pdir.din, some 0⟩, ⟨"A", pdir.dout, some 0⟩],
   [⟨"A_to_X", [], 1, 0, some 2, some 1⟩]⟩

/-- A single unconnected pin. -/
def wU : world := ⟨[⟨"P", pdir.din, none⟩], []⟩

/-- A pipe at capacity: max_length 1 with one queued packet. -/
def fullPipe : pipe := ⟨"f", [pkt0], 1, 0, some 0, some 1⟩

/-- Connection-steal scenario: outpin A at index 0, inpins X at 1 and Y at
2, no pipes yet. -/
def stealWorld (na nx ny : String) : world :=
  ⟨[⟨na, pdir.dout, none⟩, ⟨nx, pdir.din, none⟩, ⟨ny, pdir.din, none⟩], []⟩

/-- After connecting A to X: pipe 0 joins them. -/
def stealW1 (na nx ny : String) : world :=
  (pin.connect (stealWorld na nx ny) 1 0 0 0).1

/-- After pushing one packet through A, queued for X in pipe 0. -/
def stealW2 (na nx ny : String) (pkt : packet) : world :=
  (outpin.push (stealW1 na nx ny) 0 pkt).w

/-- After then connecting A to Y: the steal. The pair is the final world
and the disconnect events of the stealing connect call. -/
def stealResult (na nx ny : String) (pkt : packet) : world × List ev :=
  pin.connect (stealW2 na nx ny pkt) 2 0 0 0

/-- Pushing never changes a pipe's endpoint references. -/
theorem pipe_push_keeps_output_id (p : pipe) (pkt : packet) :
    ((p.push pkt).2.1).output_id = p.output_id := by
  unfold pipe.push
  split <;> rfl

/-- C1: the claim says outpin::push returns true when the pipe accepted the
packet. The code is a bug against its own doc comment (node.h line 218
states the same polarity as the claim): on the connected world wConn the
pipe accepts the packet (first conjunct), the packet is queued and the
inpin is captured for notification, yet the call returns false, because
line 237 returns inpin_p == nullptr. -/
theorem outpin_push_polarity_code_bug :
    ((wConn.pipes.getD 0 defaultPipe).push pkt0).1 = true
    ∧ ((outpin.push wConn 0 pkt0).w.pipes.getD 0 defaultPipe).packets = [pkt0]
    ∧ (outpin.push wConn 0 pkt0).notified = some 1
    ∧ (outpin.push wConn 0 pkt0).ret = false := by decide

/-- C5: the claim says a non-zero max_weight argument becomes the pipe's
weight cap when an input pin's existing pipe is reused. The code is a bug
against its own parameter documentation (node.h line 76): line 101 calls
cap_length with max_weight, so connecting B to X (which owns pipe 0) with
max_length 2 and max_weight 5 renames the pipe and attaches B as claimed,
but leaves the weight cap at 0 and overwrites the length cap with 5. -/
theorem connect_reuse_cap_weight_code_bug :
    ((pin.connect wReuse 1 0 2 5).1.pipes.getD 0 defaultPipe).name = "B_to_X"
    ∧ ((pin.connect wReuse 1 0 2 5).1.pins.getD 0 defaultPin).pipe_ref = some 0
    ∧ ((pin.connect wReuse 1 0 2 5).1.pipes.getD 0 defaultPipe).max_length = 5
    ∧ ((pin.connect wReuse 1 0 2 5).1.pipes.getD 0 defaultPipe).max_weight = 0 := by
  decide

/-- C4 counterexample: after connecting A (pin 0) to X (pin 1) and then
connecting A to Y (pin 2), the stealing connect call does not disconnect
the old pipe's consuming endpoint X as the claim states: the one
disconnect it performs targets pin 0 — A itself, the pipe's input end in
the code's pipe-perspective naming — and X still holds its reference to
the old pipe afterwards. -/
theorem connect_steal_disconnects_outpin_not_inpin :
    (stealResult "A" "X" "Y" pkt0).2 = [ev.evDisconnect 0]
    ∧ ((stealResult "A" "X" "Y" pkt0).1.pins.getD 1 defaultPin).pipe_ref = some 0
    ∧ ¬ (stealResult "A" "X" "Y" pkt0).2 = [ev.evDisconnect 1] := by decide

/-- C4 amended: connecting A to X, pushing one packet (queued for X), then
connecting A to Y first disconnects the old pipe's input end — A itself,
not X — and then leaves A connected only to Y through the new pipe 1
(named "<A>_to_<Y>", with A as input end and Y as output end), while X
keeps an orphaned reference to old pipe 0, which still holds the queued
packet; every pin's pipe reference still has that pin as the matching
endpoint. -/
theorem connect_steal_amended (na nx ny : String) (pkt : packet) :
    (stealResult na nx ny pkt).2 = [ev.evDisconnect 0]
    ∧ ((stealResult na nx ny pkt).1.pins.getD 0 defaultPin).pipe_ref = some 1
    ∧ ((stealResult na nx ny pkt).1.pins.getD 2 defaultPin).pipe_ref = some 1
    ∧ ((stealResult na nx ny pkt).1.pipes.getD 1 defaultPipe).input_id = some 0
    ∧ ((stealResult na nx ny pkt).1.pipes.getD 1 defaultPipe).output_id = some 2
    ∧ ((stealResult na nx ny pkt).1.pipes.getD 1 defaultPipe).name =
        na ++ "_to_" ++ ny
    ∧ ((stealResult na nx ny pkt).1.pins.getD 1 defaultPin).pipe_ref = some 0
    ∧ ((stealResult na nx ny pkt).1.pipes.getD 0 defaultPipe).output_id = some 1
    ∧ ((stealResult na nx ny pkt).1.pipes.getD 0 defaultPipe).packets = [pkt] :=
  ⟨rfl, rfl, rfl, rfl, rfl, rfl, rfl, rfl, rfl⟩

/-- C2: a push rejected because a capacity constraint would be violated —
in particular one issued when the pipe's length equals max_length — returns
the rejection flag, leaves the queue untouched, and hands the very same
packet back to the caller; and every rejected pipe-level push behaves that
way. -/
theorem pipe_push_capacity_reject_keeps_packet (p : pipe) (pkt : packet)
    (h1 : p.max_length ≠ 0) (h2 : p.length = p.max_length) :
    p.push pkt = (false, p, some pkt)
    ∧ ∀ q : pipe, ∀ x : packet, (q.push x).1 = false → q.push x = (false, q, some x) := by
  constructor
  · unfold pipe.push
    rw [if_pos (Or.inl ⟨h1, by omega⟩)]
  · intro q x hf
    unfold pipe.push at hf ⊢
    by_cases hC : (q.max_length ≠ 0 ∧ q.max_length < q.length + 1) ∨
        (q.max_weight ≠ 0 ∧ q.max_weight < q.weight + x.size)
    · rw [if_pos hC]
    · rw [if_neg hC] at hf
      simp at hf

/-- C2 witness: a pipe of max_length 1 already holding one packet rejects
the next push and returns it intact. -/
theorem pipe_push_capacity_reject_keeps_packet_witness :
    fullPipe.max_length ≠ 0 ∧ fullPipe.length = fullPipe.max_length
    ∧ fullPipe.push pkt0 = (false, fullPipe, some pkt0) :=
  ⟨by decide, by decide,
   (pipe_push_capacity_reject_keeps_packet fullPipe pkt0 (by decide) (by decide)).1⟩

/-- C3: for a push on a pin i connected to a pipe whose output end is the
connected inpin j, the event trace of outpin::push is the lock acquire,
the pipe push, the lock release, and then — exactly when the pipe accepted
the packet — a single incoming notification of j, placed after the lock
release; the notification count is 1 on acceptance and 0 on rejection, and
the captured inpin is j exactly on acceptance. -/
theorem outpin_push_notifies_iff_accepted (w : world) (i pid j : Nat)
    (P : pipe) (pkt : packet)
    (hc : (w.pins.getD i defaultPin).pipe_ref = some pid)
    (hP : w.pipes.getD pid defaultPipe = P)
    (hj : P.output_id = some j) :
    (outpin.push w i pkt).events =
      [ev.evLockAcquire, ev.evPipePush (P.push pkt).1, ev.evLockRelease]
        ++ (if (P.push pkt).1 then [ev.evIncoming j] else [])
    ∧ (outpin.push w i pkt).events.countP isIncomingEv =
        (if (P.push pkt).1 then 1 else 0)
    ∧ (outpin.push w i pkt).notified =
        (if (P.push pkt).1 then some j else none) := by
  have hout : (P.push pkt).2.1.output_id = some j := by
    rw [pipe_push_keeps_output_id]; exact hj
  unfold outpin.push
  rw [hc]
  simp only [hP]
  cases hb : (P.push pkt).1 with
  | false =>
    simp [hb, List.countP, List.countP.go, isIncomingEv]
  | true =>
    simp [hb, hout, List.countP, List.countP.go, isIncomingEv]

/-- C3 witness: on the connected world wConn the empty uncapped pipe
accepts, so the trace is acquire, push, release, then one incoming
notification of pin 1. -/
theorem outpin_push_notifies_iff_accepted_witness :
    (wConn.pins.getD 0 defaultPin).pipe_ref = some 0
    ∧ (wConn.pipes.getD 0 defaultPipe).output_id = some 1
    ∧ (outpin.push wConn 0 pkt0).events =
        [ev.evLockAcquire,
         ev.evPipePush ((wConn.pipes.getD 0 defaultPipe).push pkt0).1,
         ev.evLockRelease]
          ++ (if ((wConn.pipes.getD 0 defaultPipe).push pkt0).1 then [ev.evIncoming 1] else []) :=
  ⟨by decide, by decide,
   (outpin_push_notifies_iff_accepted wConn 0 0 1 (wConn.pipes.getD 0 defaultPipe)
     pkt0 (by decide) rfl (by decide)).1⟩

/-- C9: on a pin holding no pipe reference, peek returns false, pop returns
nothing and leaves the world unchanged, and push returns false — the
documented non-acceptance value of outpin::push — with no notification, no
events, and the packet destroyed (push takes its argument by value); none
of the three operations can fail in any other way, as all are total. -/
theorem unconnected_pin_neutral (w : world) (i : Nat) (pkt : packet)
    (h : (w.pins.getD i defaultPin).pipe_ref = none) :
    inpin.peek w i = false
    ∧ inpin.pop w i = (none, w)
    ∧ (outpin.push w i pkt).ret = false
    ∧ (outpin.push w i pkt).w = w
    ∧ (outpin.push w i pkt).notified = none
    ∧ (outpin.push w i pkt).events = []
    ∧ (outpin.push w i pkt).fate = pktFate.destroyed := by
  unfold inpin.peek inpin.pop outpin.push
  rw [h]
  exact ⟨rfl, rfl, rfl, rfl, rfl, rfl, rfl⟩

/-- C9 witness: the single unconnected pin of wU. -/
theorem unconnected_pin_neutral_witness :
    (wU.pins.getD 0 defaultPin).pipe_ref = none
    ∧ inpin.peek wU 0 = false
    ∧ inpin.pop wU 0 = (none, wU)
    ∧ (outpin.push wU 0 pkt0).ret = false :=
  ⟨by decide, (unconnected_pin_neutral wU 0 pkt0 (by decide)).1,
   (unconnected_pin_neutral wU 0 pkt0 (by decide)).2.1,
   (unconnected_pin_neutral wU 0 pkt0 (by decide)).2.2.1⟩

/-- C10: a push on an unconnected outpin returns false with the packet
destroyed, and a push on a connected pin whose pipe accepts the packet and
whose output end is the connected inpin j also returns false after
notifying j — the same boolean, so the return value alone cannot
distinguish the two outcomes. -/
theorem push_false_indistinguishable (w : world) (u c pid j : Nat)
    (P : pipe) (pkt : packet)
    (hu : (w.pins.getD u defaultPin).pipe_ref = none)
    (hc : (w.pins.getD c defaultPin).pipe_ref = some pid)
    (hP : w.pipes.getD pid defaultPipe = P)
    (hacc : (P.push pkt).1 = true)
    (hj : P.output_id = some j) :
    (outpin.push w u pkt).ret = false
    ∧ (outpin.push w u pkt).fate = pktFate.destroyed
    ∧ (outpin.push w c pkt).ret = false
    ∧ (outpin.push w c pkt).notified = some j
    ∧ ev.evIncoming j ∈ (outpin.push w c pkt).events
    ∧ (outpin.push w u pkt).ret = (outpin.push w c pkt).ret := by
  have hout : (P.push pkt).2.1.output_id = some j := by
    rw [pipe_push_keeps_output_id]; exact hj
  unfold outpin.push
  rw [hu, hc]
  simp only [hP]
  simp [hacc, hout]

/-- C10 witness: wBoth holds an unconnected outpin U at index 2 and the
connected outpin A at index 0, whose empty uncapped pipe accepts. -/
theorem push_false_indistinguishable_witness :
    (wBoth.pins.getD 2 defaultPin).pipe_ref = none
    ∧ (wBoth.pins.getD 0 defaultPin).pipe_ref = some 0
    ∧ ((wBoth.pipes.getD 0 defaultPipe).push pkt0).1 = true
    ∧ (wBoth.pipes.getD 0 defaultPipe).output_id = some 1
    ∧ (outpin.push wBoth 2 pkt0).ret = (outpin.push wBoth 0 pkt0).ret :=
  ⟨by decide, by decide, by decide, by decide,
   (push_false_indistinguishable wBoth 2 0 0 1 (wBoth.pipes.getD 0 defaultPipe)
     pkt0 (by decide) (by decide) rfl (by decide) (by decide)).2.2.2.2.2⟩

/-- A producer loop entered at stop_requested exits at once, consuming no
observations, writing nothing and producing nothing. -/
theorem producerLoop_at_stop (obss : List state) :
    producerLoop stop_requested obss = ⟨[], 0, true, obss⟩ := by
  cases obss <;> rfl

/-- From any other state, an iteration that observes stop_requested makes
the loop exit with no write and no produce call, consuming only that one
observation. -/
theorem producerLoop_exits_on_stop (s : state) (rest : List state)
    (h : s ≠ stop_requested) :
    producerLoop s (stop_requested :: rest) = ⟨[], 0, true, rest⟩ := by
  unfold producerLoop
  rw [if_neg h]
  simp [producerIterate, producerLoop_at_stop]

/-- A consumer loop entered at stop_requested exits at once. -/
theorem consumerLoop_at_stop (n : Nat) (obss : List (state × (Nat → Bool))) :
    consumerLoop n stop_requested obss = ⟨[], [], true, obss⟩ := by
  cases obss <;> rfl

/-- From any other state, a consumer iteration that observes stop_requested
makes the loop exit with no write and no ready call, consuming only that
one observation. -/
theorem consumerLoop_exits_on_stop (n : Nat) (s : state) (peek : Nat → Bool)
    (rest : List (state × (Nat → Bool))) (h : s ≠ stop_requested) :
    consumerLoop n s ((stop_requested, peek) :: rest) = ⟨[], [], true, rest⟩ := by
  unfold consumerLoop
  rw [if_neg h]
  simp [consumerIterate, consumerLoop_at_stop]

/-- The pin scan is the in-order filter of the index range, for any
sufficient fuel. -/
theorem scanPinsF_eq_filter (peek : Nat → Bool) (n : Nat) :
    ∀ (fuel i : Nat), n - i ≤ fuel →
      scanPinsF peek n i fuel = (List.range' i (n - i)).filter (fun k => peek k) := by
  intro fuel
  induction fuel with
  | zero =>
    intro i h
    have h0 : n - i = 0 := Nat.le_zero.mp h
    rw [h0]
    rfl
  | succ fuel ih =>
    intro i h
    by_cases hi : i < n
    · have hsub : n - i = (n - (i + 1)) + 1 := by omega
      simp only [scanPinsF]
      rw [if_pos hi, hsub, List.range'_succ, List.filter_cons,
        ih (i + 1) (by omega)]
      by_cases hp : peek i
      · simp [hp]
      · simp [hp]
    · have h0 : n - i = 0 := by omega
      simp only [scanPinsF]
      rw [if_neg hi, h0]
      rfl

/-- The consumer's pin scan equals the peek-filter of 0, 1, ..., n-1 in
increasing order. -/
theorem consumerScan_eq_filter_range (peek : Nat → Bool) (n : Nat) :
    consumerScan peek n = (List.range n).filter (fun k => peek k) := by
  unfold consumerScan
  rw [scanPinsF_eq_filter peek n n 0 (by omega), List.range_eq_range']
  simp

/-- The indices of the ready calls are strictly increasing. -/
theorem consumerScan_pairwise (peek : Nat → Bool) (n : Nat) :
    List.Pairwise (fun a b => a < b) (consumerScan peek n) := by
  rw [consumerScan_eq_filter_range]
  exact List.Pairwise.sublist (List.filter_sublist _) (List.pairwise_lt_range n)

/-- A ready call is recorded for index i exactly when i is a valid pin
index whose peek is true. -/
theorem consumerScan_mem (peek : Nat → Bool) (n : Nat) (i : Nat) :
    i ∈ consumerScan peek n ↔ (i < n ∧ peek i = true) := by
  rw [consumerScan_eq_filter_range]
  simp [List.mem_filter, List.mem_range]

/-- C6: the producer execution loop settles the state to started on entry
(its first monitor write); its paused wait wakes exactly on
start_requested or stop_requested; an iteration observing pause_requested
settles to paused with no produce call, and one observing start_requested
settles to started with exactly one produce call; each iteration makes
exactly one produce call when the possibly just-settled state is started
and none otherwise; and the loop terminates as soon as it observes
stop_requested, consuming no further observations. -/
theorem producer_loop_spec (s obs : state) (rest obss : List state)
    (h : s ≠ stop_requested) :
    (producerRun obss).writes.head? = some started
    ∧ (producerWake obs = true ↔ (obs = start_requested ∨ obs = stop_requested))
    ∧ producerIterate pause_requested = (paused, [paused], 0)
    ∧ producerIterate start_requested = (started, [started], 1)
    ∧ (producerIterate obs).2.2 = (if (producerIterate obs).1 = started then 1 else 0)
    ∧ producerLoop stop_requested obss = ⟨[], 0, true, obss⟩
    ∧ producerLoop s (stop_requested :: rest) = ⟨[], 0, true, rest⟩ := by
  refine ⟨rfl, ?_, by decide, by decide, ?_, producerLoop_at_stop obss,
    producerLoop_exits_on_stop s rest h⟩
  · cases obs <;> decide
  · cases obs <;> decide

/-- C6 witness: instantiated at a paused node, a started observation and
empty observation lists. -/
theorem producer_loop_spec_witness :
    paused ≠ stop_requested
    ∧ ((producerRun []).writes.head? = some started
       ∧ (producerWake started = true ↔ (started = start_requested ∨ started = stop_requested))
       ∧ producerIterate pause_requested = (paused, [paused], 0)
       ∧ producerIterate start_requested = (started, [started], 1)
       ∧ (producerIterate started).2.2 = (if (producerIterate started).1 = started then 1 else 0)
       ∧ producerLoop stop_requested [] = ⟨[], 0, true, []⟩
       ∧ producerLoop paused (stop_requested :: []) = ⟨[], 0, true, []⟩) :=
  ⟨by decide, producer_loop_spec paused started [] [] (by decide)⟩

/-- C7: whenever the state just observed by the consumer loop body is
incoming, the ready calls of that iteration are exactly the peek-filtered
pin indices 0, 1, ..., n-1 in strictly increasing order — every non-empty
pin is serviced, pins that are not ready are skipped, and a single
incoming wake may service several pins (e.g. both pins of a two-pin node);
when the observed state is anything else, no ready call is made. -/
theorem consumer_incoming_scan_spec (peek : Nat → Bool) (n : Nat) (obs : state) :
    consumerScan peek n = (List.range n).filter (fun k => peek k)
    ∧ List.Pairwise (fun a b => a < b) (consumerScan peek n)
    ∧ (∀ i : Nat, i ∈ consumerScan peek n ↔ (i < n ∧ peek i = true))
    ∧ (consumerIterate peek n obs).2.2 =
        (if obs = incoming then consumerScan peek n else [])
    ∧ consumerScan (fun _ => true) 2 = [0, 1] := by
  refine ⟨consumerScan_eq_filter_range peek n, consumerScan_pairwise peek n,
    consumerScan_mem peek n, ?_, by decide⟩
  cases obs <;> simp [consumerIterate]

/-- C8: setting the state to stop_requested (what node::stop writes)
satisfies the wake predicate of every blocking wait — the producer's
paused wait, the consumer's paused wait and the consumer's idle wait — and
a loop blocked at either suspension point that then observes
stop_requested exits with no produce or ready call and without consuming
any further observation (no packet arrival or start request is needed). -/
theorem stop_wakes_blocked_loops (s obs : state) (n : Nat) (peek : Nat → Bool)
    (prest : List state) (crest : List (state × (Nat → Bool)))
    (h : s ≠ stop_requested) :
    producerWake (node.stop obs) = true
    ∧ consumerPausedWake (node.stop obs) = true
    ∧ consumerIdleWake (node.stop obs) = true
    ∧ producerLoop s (stop_requested :: prest) = ⟨[], 0, true, prest⟩
    ∧ (producerLoop s (stop_requested :: prest)).produced = 0
    ∧ consumerLoop n s ((stop_requested, peek) :: crest) = ⟨[], [], true, crest⟩
    ∧ (consumerLoop n s ((stop_requested, peek) :: crest)).ready_calls = [] := by
  refine ⟨rfl, rfl, rfl, producerLoop_exits_on_stop s prest h, ?_,
    consumerLoop_exits_on_stop n s peek crest h, ?_⟩
  · rw [producerLoop_exits_on_stop s prest h]
  · rw [consumerLoop_exits_on_stop n s peek crest h]

/-- C8 witness: a paused node with one pin, ready pins, and empty
remainder lists. -/
theorem stop_wakes_blocked_loops_witness :
    paused ≠ stop_requested
    ∧ (producerWake (node.stop started) = true
       ∧ consumerPausedWake (node.stop started) = true
       ∧ consumerIdleWake (node.stop started) = true
       ∧ producerLoop paused (stop_requested :: []) = ⟨[], 0, true, []⟩
       ∧ (producerLoop paused (stop_requested :: [])).produced = 0
       ∧ consumerLoop 1 paused ((stop_requested, fun _ => true) :: []) = ⟨[], [], true, []⟩
       ∧ (consumerLoop 1 paused ((stop_requested, fun _ => true) :: [])).ready_calls = []) :=
  ⟨by decide, stop_wakes_blocked_loops paused started 1 (fun _ => true) [] [] (by decide)⟩

end flow
